import Mathlib

/-!
Verification of the medical-assays document-understanding pipeline
(`medical_analysis`): a shallow embedding of the parsing core
(`file_processor.py`, `gpt_parser.py`, `constants/parameters.py`,
`constants/parsing.py`, `constants/units.py`) together with proofs about it.

Python strings are modelled as lists of unicode characters (`PyStr`),
numbers as exact rationals, dictionaries as insertion-ordered association
lists, and raising code as `Except`-valued functions.
-/

namespace Medical

/-- Model of a Python `str`: a sequence of unicode code points. -/
abbrev PyStr := List Char

/-- Build a `PyStr` from a Lean string literal. -/
def pys (s : String) : PyStr := s.toList

/-- Exceptions that the embedded code can raise. -/
inductive PyErr where
  | typeError
  | valueError
  | keyError
  | apiError
  deriving DecidableEq, Repr

/-- Model of Python `str.lower` on one character (covers the Latin and
Cyrillic alphabets used by the source's tables; other characters are
unchanged, as in Python for the character set that occurs here). -/
def pyCharLower (c : Char) : Char :=
  if 'A' ≤ c ∧ c ≤ 'Z' then Char.ofNat (c.toNat + 32)
  else if 'А' ≤ c ∧ c ≤ 'Я' then Char.ofNat (c.toNat + 32)
  else if c = 'Ё' then 'ё'
  else c

/-- Model of Python `str.lower`. -/
def pyLower (s : PyStr) : PyStr := s.map pyCharLower

/-- Characters removed by Python `str.strip()`. -/
def isPySpace (c : Char) : Bool :=
  c = ' ' || c = '\t' || c = '\n' || c = '\r' || c = '\x0b' || c = '\x0c'

/-- Model of Python `str.strip()`. -/
def pyStrip (s : PyStr) : PyStr :=
  ((s.dropWhile isPySpace).reverse.dropWhile isPySpace).reverse

/-- Model of the Python substring test `needle in haystack`. -/
def pyContains (hay needle : PyStr) : Bool :=
  hay.tails.any (fun t => needle.isPrefixOf t)

/-- Model of Python `text.split("\n")`. -/
def splitLines : PyStr → List PyStr
  | [] => [[]]
  | c :: cs =>
    match splitLines cs with
    | [] => [[]]
    | l :: ls => if c = '\n' then [] :: l :: ls else (c :: l) :: ls

theorem splitLines_ne_nil (s : PyStr) : splitLines s ≠ [] := by
  induction s with
  | nil => simp [splitLines]
  | cons c cs ih =>
    simp only [splitLines]
    rcases h : splitLines cs with _ | ⟨l, ls⟩
    · simp
    · by_cases hc : c = '\n' <;> simp [hc]

/-- Insertion-ordered association lookup (Python `dict` read / `in`). -/
def alookup {α : Type _} : List (PyStr × α) → PyStr → Option α
  | [], _ => none
  | (k', v) :: rest, k => if k' = k then some v else alookup rest k

/-- Python `dict` assignment `d[k] = v`: replaces in place, else appends. -/
def aset {α : Type _} : List (PyStr × α) → PyStr → α → List (PyStr × α)
  | [], k, v => [(k, v)]
  | (k', v') :: rest, k, v =>
    if k' = k then (k, v) :: rest else (k', v') :: aset rest k v

/-- Python `d.update(e)`. -/
def aupdate {α : Type _} (d e : List (PyStr × α)) : List (PyStr × α) :=
  e.foldl (fun acc p => aset acc p.1 p.2) d

theorem alookup_mem {α : Type _} :
    ∀ (l : List (PyStr × α)) (k : PyStr) (v : α),
      alookup l k = some v → (k, v) ∈ l := by
  intro l
  induction l with
  | nil => intro k v h; simp [alookup] at h
  | cons p rest ih =>
    intro k v h
    simp only [alookup] at h
    by_cases hk : p.1 = k
    · rcases p with ⟨k', v'⟩
      simp only [hk, if_pos rfl] at h
      simp_all
    · rcases p with ⟨k', v'⟩
      simp only [if_neg hk] at h
      exact List.mem_cons_of_mem _ (ih k v h)

theorem alookup_aset {α : Type _} :
    ∀ (l : List (PyStr × α)) (k k' : PyStr) (v' : α),
      alookup (aset l k' v') k = if k' = k then some v' else alookup l k := by
  intro l
  induction l with
  | nil => intro k k' v'; simp [aset, alookup]
  | cons p rest ih =>
    intro k k' v'
    rcases p with ⟨k0, v0⟩
    by_cases h0 : k0 = k'
    · simp only [aset, if_pos h0]
      by_cases hk : k' = k
      · simp [alookup, hk]
      · simp [alookup, hk, h0]
    · simp only [aset, if_neg h0]
      by_cases hk : k0 = k
      · have : ¬ k' = k := fun he => h0 (by rw [he, hk])
        simp [alookup, hk, this]
      · simp [alookup, hk, ih]

/-! ## Unit normalizer (`constants/units.py`) -/

/-- Embedding of `UNITS_DICT`: canonical key to (en, ru) display forms. -/
def UNITS_DICT : List (PyStr × (PyStr × PyStr)) :=
  [ (pys "mmol_l", (pys "mmol/L", pys "ммоль/л"))
  , (pys "umol_l", (pys "μmol/L", pys "мкмоль/л"))
  , (pys "g_l", (pys "g/L", pys "г/л"))
  , (pys "mg_l", (pys "mg/L", pys "мг/л"))
  , (pys "mg_dl", (pys "mg/dL", pys "мг/дл"))
  , (pys "x10_9_l", (pys "×10⁹/L", pys "×10⁹/л"))
  , (pys "x10_12_l", (pys "×10¹²/L", pys "×10¹²/л"))
  , (pys "thou_ul", (pys "thou/μL", pys "тыс/мкл"))
  , (pys "u_l", (pys "U/L", pys "Ед/л"))
  , (pys "iu_l", (pys "IU/L", pys "МЕ/л"))
  , (pys "miu_ml", (pys "mIU/mL", pys "мМЕ/мл"))
  , (pys "uiu_ml", (pys "μIU/mL", pys "мкМЕ/мл"))
  , (pys "pmol_l", (pys "pmol/L", pys "пмоль/л"))
  , (pys "nmol_l", (pys "nmol/L", pys "нмоль/л"))
  , (pys "pg_ml", (pys "pg/mL", pys "пг/мл"))
  , (pys "ng_ml", (pys "ng/mL", pys "нг/мл"))
  , (pys "ng_dl", (pys "ng/dL", pys "нг/дл"))
  , (pys "percent", (pys "%", pys "%"))
  , (pys "ratio", (pys "ratio", pys "отношение"))
  , (pys "mm_h", (pys "mm/h", pys "мм/ч"))
  , (pys "ml_min", (pys "mL/min", pys "мл/мин"))
  , (pys "ml_min_1_73", (pys "mL/min/1.73m²", pys "мл/мин/1,73м²"))
  , (pys "fl", (pys "fL", pys "фл"))
  , (pys "pg", (pys "pg", pys "пг"))
  , (pys "none", (pys "", pys "")) ]

/-- Embedding of `UNIT_ALIASES`. -/
def UNIT_ALIASES : List (PyStr × PyStr) :=
  [ (pys "ммоль/л", pys "mmol_l")
  , (pys "mmol/l", pys "mmol_l")
  , (pys "мкмоль/л", pys "umol_l")
  , (pys "μmol/l", pys "umol_l")
  , (pys "umol/l", pys "umol_l")
  , (pys "г/л", pys "g_l")
  , (pys "g/l", pys "g_l")
  , (pys "мг/л", pys "mg_l")
  , (pys "mg/l", pys "mg_l")
  , (pys "мг/дл", pys "mg_dl")
  , (pys "mg/dl", pys "mg_dl")
  , (pys "10^9/л", pys "x10_9_l")
  , (pys "×10⁹/л", pys "x10_9_l")
  , (pys "x10^9/l", pys "x10_9_l")
  , (pys "10^12/л", pys "x10_12_l")
  , (pys "×10¹²/л", pys "x10_12_l")
  , (pys "x10^12/l", pys "x10_12_l")
  , (pys "тыс/мкл", pys "thou_ul")
  , (pys "ед/л", pys "u_l")
  , (pys "u/l", pys "u_l")
  , (pys "ме/л", pys "iu_l")
  , (pys "iu/l", pys "iu_l")
  , (pys "мме/мл", pys "miu_ml")
  , (pys "мкме/мл", pys "uiu_ml")
  , (pys "miu/ml", pys "miu_ml")
  , (pys "μiu/ml", pys "uiu_ml")
  , (pys "пмоль/л", pys "pmol_l")
  , (pys "pmol/l", pys "pmol_l")
  , (pys "нмоль/л", pys "nmol_l")
  , (pys "nmol/l", pys "nmol_l")
  , (pys "пг/мл", pys "pg_ml")
  , (pys "pg/ml", pys "pg_ml")
  , (pys "нг/мл", pys "ng_ml")
  , (pys "ng/ml", pys "ng_ml")
  , (pys "нг/дл", pys "ng_dl")
  , (pys "ng/dl", pys "ng_dl")
  , (pys "%", pys "percent")
  , (pys "мм/ч", pys "mm_h")
  , (pys "mm/h", pys "mm_h")
  , (pys "мл/мин", pys "ml_min")
  , (pys "ml/min", pys "ml_min")
  , (pys "мл/мин/1,73м²", pys "ml_min_1_73")
  , (pys "мл/мин/1,73м^2", pys "ml_min_1_73")
  , (pys "ml/min/1.73m²", pys "ml_min_1_73")
  , (pys "фл", pys "fl")
  , (pys "fl", pys "fl")
  , (pys "пг", pys "pg")
  , (pys "pg", pys "pg") ]

/-- Embedding of `normalize_unit` (`constants/units.py`).  An absent
`UNITS_DICT` key would be a Python `KeyError`, modelled as `.error`. -/
def normalize_unit (u : PyStr) : Except PyErr PyStr :=
  if u = [] then .ok []
  else
    match alookup UNIT_ALIASES (pyStrip (pyLower u)) with
    | none => .ok u
    | some key =>
      match alookup UNITS_DICT key with
      | some enru => .ok enru.2
      | none => .error .keyError

/-- Test whether an `Except` result equals `.ok` of a given value. -/
def exceptIsOk {α : Type _} [DecidableEq α] (e : Except PyErr α) (v : α) : Bool :=
  match e with
  | .ok w => w = v
  | .error _ => false

theorem exceptIsOk_eq {α : Type _} [DecidableEq α] (e : Except PyErr α) (v : α)
    (h : exceptIsOk e v = true) : e = .ok v := by
  cases e with
  | ok w => simp [exceptIsOk] at h; rw [h]
  | error _ => simp [exceptIsOk] at h

/-- Finite check: every canonical `ru` display form reachable through the
alias table normalizes back to itself. -/
theorem normalize_unit_canonical_fixed :
    UNIT_ALIASES.all
      (fun p => (alookup UNITS_DICT p.2).all
        (fun enru => exceptIsOk (normalize_unit enru.2) enru.2)) = true := by decide

/-- C7: the unit normalizer is idempotent: running `normalize_unit` on its
own output changes nothing.  Canonical display forms map to themselves and
strings outside the alias table are returned unchanged. -/
theorem C7_normalize_unit_idempotent (u : PyStr) :
    (normalize_unit u).bind normalize_unit = normalize_unit u := by
  by_cases hu : u = []
  · subst hu
    simp [normalize_unit, Except.bind]
  · rcases h : alookup UNIT_ALIASES (pyStrip (pyLower u)) with _ | key
    · simp [normalize_unit, hu, h, Except.bind]
    · rcases h2 : alookup UNITS_DICT key with _ | enru
      · simp [normalize_unit, hu, h, h2, Except.bind]
      · have hwhole : normalize_unit u = .ok enru.2 := by
          simp [normalize_unit, hu, h, h2]
        rw [hwhole]
        have hmem : (pyStrip (pyLower u), key) ∈ UNIT_ALIASES := alookup_mem _ _ _ h
        have hall := List.all_eq_true.mp normalize_unit_canonical_fixed
          (pyStrip (pyLower u), key) hmem
        rw [h2] at hall
        simp only [Option.all_some] at hall
        have := exceptIsOk_eq _ _ hall
        simpa [Except.bind] using this

/-! ## Parameter knowledge base (`constants/parameters.py`) -/

/-- Exact numeric model of a Python float value: an integer numerator over
a positive power-of-ten style denominator.  All values in the source are
exact decimals, so comparisons agree with the source's float comparisons.
Kept unnormalized so every operation is structurally computable. -/
structure PyFloat where
  num : Int
  den : Nat
  deriving DecidableEq, Repr

instance (n : Nat) : OfNat PyFloat n := ⟨⟨Int.ofNat n, 1⟩⟩

/-- Build the decimal `n / d`. -/
def pf (n : Int) (d : Nat) : PyFloat := ⟨n, d⟩

/-- Comparison `a <= b` by cross multiplication. -/
def pfLe (a b : PyFloat) : Bool := a.num * (b.den : Int) ≤ b.num * (a.den : Int)

/-- Comparison `a < b` by cross multiplication. -/
def pfLt (a b : PyFloat) : Bool := a.num * (b.den : Int) < b.num * (a.den : Int)

/-- Python `min` on two floats (first argument wins ties). -/
def pfMin (a b : PyFloat) : PyFloat := if pfLe a b then a else b

/-- Python `max` on two floats (first argument wins ties). -/
def pfMax (a b : PyFloat) : PyFloat := if pfLe b a then a else b

/-- Reference range of a parameter: either flat or keyed by sex (an
insertion-ordered dict in the source). -/
inductive RefRange where
  | flat (r : PyFloat × PyFloat)
  | bySex (entries : List (PyStr × (PyFloat × PyFloat)))
  deriving DecidableEq, Repr

/-- One entry of the `PARAMETERS` catalog. -/
structure ParamDef where
  namesRu : List PyStr
  aliases : List PyStr
  ptype : PyStr
  units : List PyStr
  reference : RefRange
  prange : PyFloat × PyFloat
  keywords : List PyStr
  deriving DecidableEq, Repr

/-- Embedding of the `PARAMETERS` dict (insertion order preserved). -/
def PARAMETERS : List (PyStr × ParamDef) :=
  [ (pys "neutrophils_absolute",
     ⟨[pys "Нейтрофилы абс."], [pys "neutrophils_absolute", pys "ne_abs"],
      pys "blood_general", [pys "×10⁹/л", pys "×10^9/L"],
      .flat ((pf 20 10), (pf 70 10)), (0, 20), [pys "нейтрофилы абс"]⟩)
  , (pys "lymphocytes_absolute",
     ⟨[pys "Лимфоциты абс."], [pys "lymphocytes_absolute", pys "lymf_abs"],
      pys "blood_general", [pys "×10⁹/л", pys "×10^9/L"],
      .flat ((pf 10 10), (pf 30 10)), (0, 10), [pys "лимфоциты абс"]⟩)
  , (pys "monocytes_absolute",
     ⟨[pys "Моноциты абс."], [pys "monocytes_absolute", pys "mon_abs"],
      pys "blood_general", [pys "×10⁹/л", pys "×10^9/L"],
      .flat ((pf 1 10), (pf 7 10)), (0, 5), [pys "моноциты абс"]⟩)
  , (pys "eosinophils_absolute",
     ⟨[pys "Эозинофилы абс."], [pys "eosinophils_absolute", pys "eo_abs"],
      pys "blood_general", [pys "×10⁹/л", pys "×10^9/L"],
      .flat ((pf 2 100), (pf 3 10)), (0, 5), [pys "эозинофилы абс"]⟩)
  , (pys "basophils_absolute",
     ⟨[pys "Базофилы абс."], [pys "basophils_absolute", pys "ba_abs"],
      pys "blood_general", [pys "×10⁹/л", pys "×10^9/L"],
      .flat ((pf 0 10), (pf 8 100)), (0, 2), [pys "базофилы абс"]⟩)
  , (pys "hemoglobin",
     ⟨[pys "Гемоглобин"], [pys "hemoglobin", pys "hgb", pys "hb"],
      pys "blood_general", [pys "г/л", pys "g/L"],
      .bySex [(pys "male", (130, 170)), (pys "female", (120, 150))],
      (50, 250), [pys "гемоглобин", pys "hgb", pys "hb"]⟩)
  , (pys "erythrocytes",
     ⟨[pys "Эритроциты"], [pys "erythrocytes", pys "rbc", pys "red_blood_cells"],
      pys "blood_general", [pys "×10¹²/л", pys "×10^12/L"],
      .bySex [(pys "male", ((pf 43 10), (pf 57 10))), (pys "female", ((pf 38 10), (pf 51 10)))],
      (1, 10), [pys "эритроциты", pys "rbc"]⟩)
  , (pys "leukocytes",
     ⟨[pys "Лейкоциты"], [pys "leukocytes", pys "wbc", pys "white_blood_cells"],
      pys "blood_general", [pys "×10⁹/л", pys "×10^9/L"],
      .flat ((pf 389 100), (pf 923 100)), (1, 50), [pys "лейкоциты", pys "wbc"]⟩)
  , (pys "platelets",
     ⟨[pys "Тромбоциты"], [pys "platelets", pys "plt"],
      pys "blood_general", [pys "×10⁹/л", pys "×10^9/L"],
      .flat (150, 400), (50, 1000), [pys "тромбоциты", pys "plt", pys "platelets"]⟩)
  , (pys "hematocrit",
     ⟨[pys "Гематокрит"], [pys "hematocrit", pys "hct"],
      pys "blood_general", [pys "%"],
      .bySex [(pys "male", (40, 48)), (pys "female", (36, 42))],
      (10, 80), [pys "гематокрит", pys "hct"]⟩)
  , (pys "esr",
     ⟨[pys "СОЭ"], [pys "esr", pys "esr_westergren"],
      pys "blood_general", [pys "мм/ч", pys "mm/h"],
      .bySex [(pys "male", (0, 10)), (pys "female", (0, 15))],
      (0, 50), [pys "соэ (метод", pys "скорости оседания эритроцитов"]⟩)
  , (pys "neutrophils_percentage",
     ⟨[pys "Нейтрофилы %"],
      [pys "neutrophils", pys "neutrophils_percentage", pys "neutrophils_percent", pys "ne_percent"],
      pys "blood_general", [pys "%"],
      .flat (47, 72), (0, 100), [pys "нейтрофилы", pys "neutrophils", pys "ne"]⟩)
  , (pys "lymphocytes_percentage",
     ⟨[pys "Лимфоциты %"],
      [pys "lymphocytes", pys "lymphocytes_percentage", pys "lymphocytes_percent", pys "lymf_percent"],
      pys "blood_general", [pys "%"],
      .flat (19, 37), (0, 100), [pys "лимфоциты", pys "lymphocytes", pys "lymf"]⟩)
  , (pys "monocytes_percentage",
     ⟨[pys "Моноциты %"],
      [pys "monocytes", pys "monocytes_percentage", pys "monocytes_percent", pys "mon_percent"],
      pys "blood_general", [pys "%"],
      .flat (3, 11), (0, 50), [pys "моноциты", pys "monocytes", pys "mon"]⟩)
  , (pys "eosinophils_percentage",
     ⟨[pys "Эозинофилы %"],
      [pys "eosinophils", pys "eosinophils_percentage", pys "eosinophils_percent", pys "eo_percent"],
      pys "blood_general", [pys "%"],
      .flat ((pf 5 10), 5), (0, 50), [pys "эозинофилы", pys "eosinophils", pys "eo"]⟩)
  , (pys "basophils_percentage",
     ⟨[pys "Базофилы %"],
      [pys "basophils", pys "basophils_percentage", pys "basophils_percent", pys "ba_percent"],
      pys "blood_general", [pys "%"],
      .flat (0, 1), (0, 20), [pys "базофилы", pys "basophils", pys "ba"]⟩)
  , (pys "mcv",
     ⟨[pys "Средний объем эритроцита (MCV)"], [pys "mcv", pys "mean_corpuscular_volume"],
      pys "blood_general", [pys "фл", pys "fL"],
      .flat (80, 100), (50, 150), [pys "mcv", pys "mean corpuscular volume"]⟩)
  , (pys "mch",
     ⟨[pys "Среднее содержание гемоглобина в эритроците (MCH)"],
      [pys "mch", pys "mean_corpuscular_hemoglobin"],
      pys "blood_general", [pys "пг", pys "pg"],
      .flat (27, 31), (15, 50), [pys "mch", pys "mean corpuscular hemoglobin"]⟩)
  , (pys "mchc",
     ⟨[pys "Средняя концентрация гемоглобина в эритроците (MCHC)"],
      [pys "mchc", pys "mean_corpuscular_hemoglobin_concentration"],
      pys "blood_general", [pys "г/л", pys "g/L"],
      .flat (320, 360), (250, 400), [pys "mchc", pys "mean corpuscular hemoglobin concentration"]⟩)
  , (pys "rdw_cv",
     ⟨[pys "Ширина распределения эритроцитов (RDW-CV)"],
      [pys "rdw_cv", pys "red_cell_distribution_width_cv"],
      pys "blood_general", [pys "%"],
      .flat ((pf 115 10), (pf 145 10)), (5, 30), [pys "rdw-cv", pys "red cell distribution width cv"]⟩)
  , (pys "rdw_sd",
     ⟨[pys "Ширина распределения эритроцитов (RDW-SD)"],
      [pys "rdw_sd", pys "red_cell_distribution_width_sd"],
      pys "blood_general", [pys "фл", pys "fL"],
      .flat (37, 54), (20, 100), [pys "rdw-sd", pys "red cell distribution width sd"]⟩)
  , (pys "immature_granulocytes_percentage",
     ⟨[pys "Незрелые гранулоциты %"], [pys "immature_granulocytes_percentage"],
      pys "blood_general", [pys "%"],
      .flat (0, (pf 5 10)), (0, 10), [pys "незрелые гранулоциты"]⟩)
  , (pys "immature_granulocytes_absolute",
     ⟨[pys "Незрелые гранулоциты абс."], [pys "immature_granulocytes_absolute"],
      pys "blood_general", [pys "×10⁹/л"],
      .flat (0, (pf 5 100)), (0, 2), [pys "незрелые гранулоциты абс"]⟩)
  , (pys "normoblasts_percentage",
     ⟨[pys "Нормобласты %"], [pys "normoblasts_percentage"],
      pys "blood_general", [pys "%"],
      .flat (0, 0), (0, 10), [pys "нормобласты"]⟩)
  , (pys "normoblasts_absolute",
     ⟨[pys "Нормобласты абс."], [pys "normoblasts_absolute"],
      pys "blood_general", [pys "×10⁹/л"],
      .flat (0, 0), (0, 2), [pys "нормобласты абс"]⟩)
  , (pys "mpv",
     ⟨[pys "Средний объем тромбоцитов (MPV)"], [pys "mpv", pys "mean_platelet_volume"],
      pys "blood_general", [pys "фл", pys "fL"],
      .flat ((pf 70 10), (pf 110 10)), (5, 20), [pys "mpv", pys "mean platelet volume"]⟩)
  , (pys "pct",
     ⟨[pys "Тромбокрит (PCT)"], [pys "pct", pys "platelet_crit"],
      pys "blood_general", [pys "%"],
      .flat ((pf 15 100), (pf 40 100)), (0, 1), [pys "pct", pys "platelet crit"]⟩)
  , (pys "pdw",
     ⟨[pys "Ширина распределения тромбоцитов (PDW)"], [pys "pdw", pys "platelet_distribution_width"],
      pys "blood_general", [pys "%"],
      .flat (10, 18), (5, 30), [pys "pdw", pys "platelet distribution width"]⟩)
  , (pys "glucose",
     ⟨[pys "Глюкоза"], [pys "glucose", pys "sugar"],
      pys "blood_biochem", [pys "ммоль/л", pys "mmol/L"],
      .flat ((pf 33 10), (pf 55 10)), (1, 30), [pys "глюкоза", pys "glucose"]⟩)
  , (pys "creatinine",
     ⟨[pys "Креатинин в крови"], [pys "creatinine"],
      pys "blood_biochem", [pys "мкмоль/л", pys "μmol/L"],
      .bySex [(pys "male", (62, 106)), (pys "female", (44, 80))],
      (20, 500), [pys "креатинин", pys "creatinine"]⟩)
  , (pys "urea",
     ⟨[pys "Мочевина"], [pys "urea"],
      pys "blood_biochem", [pys "ммоль/л", pys "mmol/L"],
      .flat ((pf 276 100), (pf 807 100)), (1, 50), [pys "мочевина", pys "urea"]⟩)
  , (pys "bilirubin_total",
     ⟨[pys "Билирубин общий"], [pys "bilirubin_total", pys "total_bilirubin"],
      pys "blood_biochem", [pys "мкмоль/л", pys "μmol/L"],
      .flat (5, 21), (0, 500), [pys "билирубин общий", pys "total bilirubin"]⟩)
  , (pys "alt",
     ⟨[pys "АЛТ (аланинаминотрансфераза)"], [pys "alt", pys "alat", pys "alanine_aminotransferase"],
      pys "blood_biochem", [pys "Ед/л", pys "U/L"],
      .bySex [(pys "male", (0, 41)), (pys "female", (0, 33))],
      (0, 500), [pys "алт", pys "аланинаминотрансфераза"]⟩)
  , (pys "ast",
     ⟨[pys "АСТ (аспартатаминотрансфераза)"], [pys "ast", pys "asat", pys "aspartate_aminotransferase"],
      pys "blood_biochem", [pys "Ед/л", pys "U/L"],
      .bySex [(pys "male", (0, 37)), (pys "female", (0, 31))],
      (0, 500), [pys "аст", pys "аспартатаминотрансфераза"]⟩)
  , (pys "cholesterol",
     ⟨[pys "Холестерин общий"], [pys "cholesterol", pys "total_cholesterol"],
      pys "blood_biochem", [pys "ммоль/л", pys "mmol/L"],
      .flat ((pf 30 10), (pf 52 10)), (1, 20), [pys "холестерин общий", pys "total cholesterol"]⟩)
  , (pys "gfr_ckd_epi",
     ⟨[pys "Скорость клубочковой фильтрации (СКФ), расчет по формуле CKD-EPI"],
      [pys "gfr_ckd_epi", pys "gfr", pys "egfr"],
      pys "blood_biochem", [pys "мл/мин/1,73м²", pys "mL/min/1.73m²"],
      .flat (90, 120), (5, 150), [pys "скф", pys "gfr", pys "ckd-epi"]⟩)
  , (pys "atherogenic_index",
     ⟨[pys "Индекс атерогенности"], [pys "atherogenic_index", pys "atherogenic_coefficient"],
      pys "blood_biochem", [pys ""],
      .flat (0, (pf 30 10)), (0, 10), [pys "индекс атерогенности", pys "atherogenic index"]⟩)
  , (pys "tsh",
     ⟨[pys "ТТГ (тиреотропный гормон)"], [pys "tsh", pys "thyroid_stimulating_hormone"],
      pys "hormones", [pys "мМЕ/мл", pys "mIU/mL", pys "мкМЕ/мл"],
      .flat ((pf 27 100), (pf 42 10)), ((pf 1 10), 10), [pys "ттг", pys "tsh", pys "thyroid stimulating hormone"]⟩)
  , (pys "free_t4",
     ⟨[pys "Свободный Т4"], [pys "free_t4", pys "ft4", pys "free_thyroxine"],
      pys "hormones", [pys "пмоль/л", pys "pmol/L"],
      .flat ((pf 120 10), (pf 220 10)), (5, 30), [pys "свободный т4", pys "free t4", pys "ft4"]⟩)
  , (pys "free_t3",
     ⟨[pys "Свободный Т3"], [pys "free_t3", pys "ft3", pys "free_triiodothyronine"],
      pys "hormones", [pys "пмоль/л", pys "pmol/L"],
      .flat ((pf 31 10), (pf 68 10)), (1, 15), [pys "свободный т3", pys "free t3", pys "ft3"]⟩)
  , (pys "testosterone",
     ⟨[pys "Тестостерон"], [pys "testosterone"],
      pys "hormones", [pys "нмоль/л", pys "nmol/L"],
      .bySex [(pys "male", ((pf 76 10), (pf 314 10))), (pys "female", ((pf 29 100), (pf 167 100)))],
      (0, 50), [pys "тестостерон", pys "testosterone"]⟩)
  , (pys "estradiol",
     ⟨[pys "Эстрадиол"], [pys "estradiol", pys "e2"],
      pys "hormones", [pys "пг/мл", pys "pg/mL"],
      .flat ((pf 258 10), (pf 607 10)), (5, 500), [pys "эстрадиол", pys "estradiol"]⟩)
  , (pys "prolactin",
     ⟨[pys "Пролактин"], [pys "prolactin", pys "prl"],
      pys "hormones", [pys "нг/мл", pys "ng/mL", pys "мМЕ/мл"],
      .bySex [(pys "male", ((pf 25 10), 17)), (pys "female", ((pf 45 10), 33))],
      (0, 100), [pys "пролактин", pys "prolactin"]⟩)
  , (pys "cortisol",
     ⟨[pys "Кортизол"], [pys "cortisol"],
      pys "hormones", [pys "нмоль/л", pys "nmol/L"],
      .flat (138, 690), (0, 1500), [pys "кортизол", pys "cortisol"]⟩)
  , (pys "fsh",
     ⟨[pys "ФСГ (фолликулостимулирующий гормон)"], [pys "fsh", pys "follicle_stimulating_hormone"],
      pys "hormones", [pys "мМЕ/мл", pys "mIU/mL"],
      .bySex [(pys "male", ((pf 15 10), (pf 124 10))), (pys "female", ((pf 28 10), (pf 113 10)))],
      (0, 50), [pys "фсг", pys "fsh", pys "follicle stimulating"]⟩)
  , (pys "lh",
     ⟨[pys "ЛГ (лютеинизирующий гормон)"], [pys "lh", pys "luteinizing_hormone"],
      pys "hormones", [pys "мМЕ/мл", pys "mIU/mL"],
      .bySex [(pys "male", ((pf 17 10), (pf 86 10))), (pys "female", ((pf 24 10), (pf 126 10)))],
      (0, 100), [pys "лг", pys "lh", pys "luteinizing"]⟩)
  , (pys "shbg",
     ⟨[pys "ГСПГ (глобулин, связывающий половые гормоны)"],
      [pys "shbg", pys "sex_hormone_binding_globulin"],
      pys "hormones", [pys "нмоль/л", pys "nmol/L"],
      .bySex [(pys "male", (13, 71)), (pys "female", (18, 114))],
      (0, 200), [pys "гспг", pys "shbg", pys "sex hormone binding"]⟩)
  , (pys "psa",
     ⟨[pys "ПСА (простатспецифический антиген)"], [pys "psa", pys "prostate_specific_antigen"],
      pys "hormones", [pys "нг/мл", pys "ng/mL"],
      .flat (0, (pf 40 10)), (0, 100), [pys "пса", pys "psa", pys "prostate specific"]⟩)
  , (pys "free_androgen_index",
     ⟨[pys "Индекс свободных андрогенов"], [pys "free_androgen_index", pys "fai"],
      pys "hormones", [pys "%"],
      .bySex [(pys "male", ((pf 148 10), (pf 948 10))), (pys "female", ((pf 8 10), (pf 110 10)))],
      (0, 200), [pys "индекс свободных андрогенов", pys "free androgen index"]⟩) ]

/-- Generated mapping `PARAMETER_TYPE_MAP`: lower-cased alias to category
(alias keys are pairwise distinct, so the assoc list equals the dict). -/
def PARAMETER_TYPE_MAP : List (PyStr × PyStr) :=
  PARAMETERS.flatMap (fun p => p.2.aliases.map (fun a => (pyLower a, p.2.ptype)))

/-- Generated mapping `RANGES_PARSER`: lower-cased alias to plausibility range. -/
def RANGES_PARSER_MAP : List (PyStr × (PyFloat × PyFloat)) :=
  PARAMETERS.flatMap (fun p => p.2.aliases.map (fun a => (pyLower a, p.2.prange)))

/-- Generated table `BLOOD_PARSER`: blood-general parameter key to keywords. -/
def BLOOD_PARSER_MAP : List (PyStr × List PyStr) :=
  (PARAMETERS.filter (fun p => p.2.ptype = pys "blood_general")).map
    (fun p => (p.1, p.2.keywords))

/-- Generated table `BIOCHEM_PARSER`. -/
def BIOCHEM_PARSER_MAP : List (PyStr × List PyStr) :=
  (PARAMETERS.filter (fun p => p.2.ptype = pys "blood_biochem")).map
    (fun p => (p.1, p.2.keywords))

/-- Generated table `HORMONES_PARSER`. -/
def HORMONES_PARSER_MAP : List (PyStr × List PyStr) :=
  (PARAMETERS.filter (fun p => p.2.ptype = pys "hormones")).map
    (fun p => (p.1, p.2.keywords))

/-- Embedding of `BLOOD_LEUKO_PARAMS` (`constants/parameters.py`, the one
imported via `constants/__init__.py`): a Python *list*, not a dict. -/
def BLOOD_LEUKO_PARAMS : List PyStr :=
  [ pys "neutrophils_percentage"
  , pys "lymphocytes_percentage"
  , pys "monocytes_percentage"
  , pys "eosinophils_percentage"
  , pys "basophils_percentage" ]

/-- Embedding of `get_parameter_info`: scan `PARAMETERS` in order for the
first entry whose lower-cased alias list contains the lower-cased key;
return the entry (the source returns a dict of its fields). -/
def get_parameter_info (k : PyStr) : Option (PyStr × ParamDef) :=
  PARAMETERS.find? (fun p => (p.2.aliases.map pyLower).contains (pyLower k))

/-- Embedding of `get_reference_range`.  `gender` is `None` or a string; an
empty string is falsy in the source's `if gender and ...` test. -/
def get_reference_range (k : PyStr) (gender : Option PyStr) : Option (PyFloat × PyFloat) :=
  match get_parameter_info k with
  | none => none
  | some (_, d) =>
    match d.reference with
    | .flat r => some r
    | .bySex entries =>
      let byGender : Option (PyFloat × PyFloat) :=
        match gender with
        | none => none
        | some g => if g = [] then none else alookup entries (pyLower g)
      match byGender with
      | some r => some r
      | none =>
        let male := (alookup entries (pys "male")).getD (0, 0)
        let female := (alookup entries (pys "female")).getD (0, 0)
        some (pfMin male.1 female.1, pfMax male.2 female.2)

/-- Embedding of `MedicalDataParser._validate_value` (and the identical
module-level `validate_value`): plausibility check against `RANGES_PARSER`,
permissive for unknown keys. -/
def validate_value (k : PyStr) (v : PyFloat) : Bool :=
  match alookup RANGES_PARSER_MAP k with
  | some r => pfLe r.1 v && pfLe v r.2
  | none => true

/-- Containment of a parameter's reference range in its plausibility range,
for every sex key when the reference is sex-keyed. -/
def refContained (d : ParamDef) : Bool :=
  match d.reference with
  | .flat r => pfLe d.prange.1 r.1 && pfLe r.2 d.prange.2
  | .bySex entries =>
    entries.all (fun e => pfLe d.prange.1 e.2.1 && pfLe e.2.2 d.prange.2)

/-- C8: in the parameter knowledge base every alias occurs in exactly one
parameter's alias list (the concatenation of all alias lists has no
duplicates), and each parameter's plausibility range contains its reference
range — both the male and the female range when the reference is sex-keyed. -/
theorem C8_knowledge_base_invariants :
    ((PARAMETERS.map (fun p => p.2.aliases)).flatten).Nodup ∧
    PARAMETERS.all (fun p => refContained p.2) = true := by
  constructor
  · decide
  · decide

/-- Proof-side accessor: the sex-keyed reference entries of the parameter an
alias resolves to, if its reference range is sex-keyed. -/
def sexEntriesOf (a : PyStr) : Option (List (PyStr × (PyFloat × PyFloat))) :=
  match get_parameter_info a with
  | none => none
  | some (_, d) =>
    match d.reference with
    | .bySex entries => some entries
    | .flat _ => none

/-- C6: for a sex-keyed parameter, `get_reference_range` without a sex (or
with a sex whose lower-cased form is not a key of the mapping) returns the
union envelope (min of the lows, max of the highs); with a recognized sex it
returns that sex's range; for an unknown alias it returns `none`. -/
theorem C6_reference_range_envelope (a g : PyStr) :
    (∀ entries m f,
       sexEntriesOf a = some entries →
       alookup entries (pys "male") = some m →
       alookup entries (pys "female") = some f →
       (get_reference_range a none = some (pfMin m.1 f.1, pfMax m.2 f.2)) ∧
       (g ≠ [] → alookup entries (pyLower g) = none →
          get_reference_range a (some g) = some (pfMin m.1 f.1, pfMax m.2 f.2)) ∧
       (∀ r, g ≠ [] → alookup entries (pyLower g) = some r →
          get_reference_range a (some g) = some r)) ∧
    (get_parameter_info a = none → ∀ g2, get_reference_range a g2 = none) := by
  constructor
  · intro entries m f hse hm hf
    rcases hinfo : get_parameter_info a with _ | ⟨ck, d⟩
    · simp [sexEntriesOf, hinfo] at hse
    · rcases href : d.reference with r | entries2
      · simp [sexEntriesOf, hinfo, href] at hse
      · have he : entries2 = entries := by
          simpa [sexEntriesOf, hinfo, href] using hse
        subst he
        refine ⟨?_, ?_, ?_⟩
        · simp [get_reference_range, hinfo, href, hm, hf]
        · intro hg hng
          simp [get_reference_range, hinfo, href, hg, hng, hm, hf]
        · intro r hg hr
          simp [get_reference_range, hinfo, href, hg, hr]
  · intro hnone g2
    simp [get_reference_range, hnone]

/-- Closed witness for `C6_reference_range_envelope` at the sex-keyed
parameter `hemoglobin` (reference male 130–170, female 120–150) and at an
unknown alias. -/
theorem C6_reference_range_envelope_witness :
    get_reference_range (pys "hemoglobin") none = some (120, 170) ∧
    get_reference_range (pys "hemoglobin") (some (pys "дети")) = some (120, 170) ∧
    get_reference_range (pys "hemoglobin") (some (pys "Male")) = some (130, 170) ∧
    get_reference_range (pys "nosuchparam") (some (pys "male")) = none := by
  have h1 := (C6_reference_range_envelope (pys "hemoglobin") (pys "дети")).1
    [(pys "male", ((130 : PyFloat), (170 : PyFloat))), (pys "female", ((120 : PyFloat), (150 : PyFloat)))]
    ((130 : PyFloat), (170 : PyFloat)) ((120 : PyFloat), (150 : PyFloat))
    (by decide) (by decide) (by decide)
  have h2 := (C6_reference_range_envelope (pys "hemoglobin") (pys "Male")).1
    [(pys "male", ((130 : PyFloat), (170 : PyFloat))), (pys "female", ((120 : PyFloat), (150 : PyFloat)))]
    ((130 : PyFloat), (170 : PyFloat)) ((120 : PyFloat), (150 : PyFloat))
    (by decide) (by decide) (by decide)
  have h3 := (C6_reference_range_envelope (pys "nosuchparam") (pys "male")).2
    (by decide) (some (pys "male"))
  refine ⟨?_, ?_, ?_, ?_⟩
  · simpa using h1.1
  · simpa using h1.2.1 (by decide) (by decide)
  · simpa using h2.2.2 ((130 : PyFloat), (170 : PyFloat)) (by decide) (by decide)
  · exact h3

/-! ## Keyword tables and detectors (`constants/parsing.py`, `file_processor.py`) -/

/-- Embedding of `ANALYSIS_KEYWORDS` (keys `blood_general`, `blood_biochem`,
`hormones`, in insertion order). -/
def ANALYSIS_KEYWORDS : List (PyStr × List PyStr) :=
  [ (pys "blood_general",
     [ pys "гемоглобин", pys "эритроциты", pys "лейкоциты", pys "соэ"
     , pys "hemoglobin", pys "rbc", pys "wbc", pys "общий анализ крови"
     , pys "cbc", pys "complete blood count", pys "тромбоциты"
     , pys "platelets", pys "лейкоформула" ])
  , (pys "blood_biochem",
     [ pys "глюкоза", pys "белок", pys "креатинин", pys "мочевина"
     , pys "алт", pys "аст", pys "холестерин", pys "glucose", pys "protein"
     , pys "creatinine", pys "urea", pys "alt", pys "ast"
     , pys "bilirubin_total", pys "cholesterol", pys "биохимический анализ"
     , pys "биохимия", pys "biochemistry", pys "липидный профиль" ])
  , (pys "hormones",
     [ pys "ттг", pys "тироксин", pys "тестостерон", pys "эстрадиол"
     , pys "пролактин", pys "tsh", pys "t4", pys "testosterone"
     , pys "hormone", pys "гормон", pys "гормональный", pys "эндокринология" ]) ]

/-- Embedding of `LABORATORY_SIGNATURES` (keys are the `LaboratoryType`
member names, in insertion order). -/
def LABORATORY_SIGNATURES : List (PyStr × List PyStr) :=
  [ (pys "INVITRO", [pys "инвитро", pys "invitro", pys "www.invitro.ru", pys "cmd-online.ru"])
  , (pys "HELIX", [pys "хеликс", pys "helix", pys "www.helix.ru", pys "cmd helix"])
  , (pys "KDL", [pys "кдл", pys "kdl", pys "kdlmed.ru", pys "клинико-диагностическая лаборатория"])
  , (pys "GEMOTEST", [pys "гемотест", pys "gemotest", pys "gemotest.ru"])
  , (pys "CMD", [pys "цмд", pys "cmd", pys "cmd-online", pys "центр молекулярной диагностики"]) ]

/-- Python `sum(1 for keyword in kws if keyword in text_lower)` — iterating
`None` (the result of a failed `dict.get`) raises `TypeError`. -/
def scoreKeywords : Option (List PyStr) → PyStr → Except PyErr Nat
  | none, _ => .error .typeError
  | some kws, tl => .ok (kws.countP (fun kw => pyContains tl kw))

/-- Embedding of `MedicalDataParser.detect_analysis_type`.  Note that the
source fetches the biochemistry keyword list as
`ANALYSIS_KEYWORDS.get("biochem")`, while the table's key is
`"blood_biochem"`, so that lookup yields `None`. -/
def detect_analysis_type (text : PyStr) : Except PyErr PyStr :=
  let tl := pyLower text
  match scoreKeywords (alookup ANALYSIS_KEYWORDS (pys "blood_general")) tl with
  | .error e => .error e
  | .ok bg =>
    match scoreKeywords (alookup ANALYSIS_KEYWORDS (pys "biochem")) tl with
    | .error e => .error e
    | .ok bc =>
      match scoreKeywords (alookup ANALYSIS_KEYWORDS (pys "hormones")) tl with
      | .error e => .error e
      | .ok h =>
        .ok (if h > max bg bc then pys "hormones"
             else if bg > bc then pys "blood_general"
             else if bc > 0 then pys "blood_biochem"
             else pys "unknown")

/-- Loop of `detect_laboratory`: first signature table entry with a
fingerprint contained in the lowered text wins; otherwise the parser's
initial `self.laboratory` (`unknown`) is returned. -/
def detectLabScan (tl : PyStr) : List (PyStr × List PyStr) → PyStr
  | [] => pys "unknown"
  | (lab, sigs) :: rest =>
    if sigs.any (fun sig => pyContains tl sig) then lab else detectLabScan tl rest

/-- Embedding of `GroupedAnalysisParser.detect_laboratory` on a freshly
constructed parser (`self.laboratory` is `LaboratoryType.UNKNOWN`). -/
def detect_laboratory (text : PyStr) : PyStr :=
  detectLabScan (pyLower text) LABORATORY_SIGNATURES

theorem detectLabScan_all_false (tl : PyStr) :
    ∀ (l : List (PyStr × List PyStr)),
      (∀ p ∈ l, ∀ sig ∈ p.2, pyContains tl sig = false) →
      detectLabScan tl l = pys "unknown" := by
  intro l
  induction l with
  | nil => intro _; rfl
  | cons x xs ih =>
    intro h
    rcases x with ⟨lab, sigs⟩
    have hany : sigs.any (fun sig => pyContains tl sig) = false := by
      simp only [List.any_eq_false]
      intro sig hsig
      simp [h (lab, sigs) (List.mem_cons_self _ _) sig hsig]
    simp only [detectLabScan, hany, if_false]
    exact ih (fun p hp => h p (List.mem_cons_of_mem _ hp))

/-- C2 counterexample: the claim implies `detect_analysis_type` returns a
classification for the text `"гормон"` (a hormones keyword), but the call
raises a `TypeError`: the biochemistry keywords are fetched under the key
`"biochem"`, which is absent from `ANALYSIS_KEYWORDS`, and the resulting
`None` is then iterated. -/
theorem C2_detect_type_counterexample :
    detect_analysis_type (pys "гормон") = Except.error PyErr.typeError := by rfl

/-- C2 amended: `detect_analysis_type` raises a `TypeError` on every input
text, because the biochemistry keyword list is fetched under the key
`"biochem"` while the table stores it under `"blood_biochem"`; no
classification is ever returned. -/
theorem C2_detect_type_always_raises (text : PyStr) :
    detect_analysis_type text = Except.error PyErr.typeError := by
  have hsome : ∃ l, alookup ANALYSIS_KEYWORDS (pys "blood_general") = some l := ⟨_, rfl⟩
  obtain ⟨l, hl⟩ := hsome
  have hnone : alookup ANALYSIS_KEYWORDS (pys "biochem") = none := by rfl
  unfold detect_analysis_type
  rw [hl, hnone]
  simp [scoreKeywords]

/-- C9: any text containing the fingerprint `"www.invitro.ru"` (after
lower-casing) is attributed to Invitro — the first signature entry scanned —
and any text containing no signature of any laboratory yields `"unknown"`. -/
theorem C9_detect_laboratory (text : PyStr) :
    (pyContains (pyLower text) (pys "www.invitro.ru") = true →
       detect_laboratory text = pys "INVITRO") ∧
    ((∀ p ∈ LABORATORY_SIGNATURES, ∀ sig ∈ p.2,
        pyContains (pyLower text) sig = false) →
       detect_laboratory text = pys "unknown") := by
  constructor
  · intro hc
    have hq : List.any
        [pys "инвитро", pys "invitro", pys "www.invitro.ru", pys "cmd-online.ru"]
        (fun sig => pyContains (pyLower text) sig) = true := by
      simp only [List.any_eq_true]
      exact ⟨pys "www.invitro.ru", by decide, hc⟩
    unfold detect_laboratory LABORATORY_SIGNATURES
    simp only [detectLabScan, hq, if_true]
  · intro hall
    exact detectLabScan_all_false (pyLower text) LABORATORY_SIGNATURES hall

/-- Closed witness for `C9_detect_laboratory`: a text carrying the Invitro
fingerprint (in mixed case) is detected, and a fingerprint-free text is
`unknown`. -/
theorem C9_detect_laboratory_witness :
    detect_laboratory (pys "см. www.Invitro.RU, стр 2") = pys "INVITRO" ∧
    detect_laboratory (pys "обычный текст без меток") = pys "unknown" :=
  ⟨(C9_detect_laboratory (pys "см. www.Invitro.RU, стр 2")).1 (by decide),
   (C9_detect_laboratory (pys "обычный текст без меток")).2 (by decide)⟩

/-! ## Deterministic parser (`MedicalDataParser`, `file_processor.py`) -/

/-- Numeric value of an ASCII digit string. -/
def natOfDigits (ds : PyStr) : Nat := ds.foldl (fun a c => 10 * a + (c.toNat - 48)) 0

/-- Match of the value regex `(\d+[\.,]\d+|\d+)` anchored at the start of
`s`; returns the text of group 1.  (Backtracking never helps this pattern,
so maximal digit runs are faithful.) -/
def matchNumberAt (s : PyStr) : Option PyStr :=
  let d1 := s.takeWhile Char.isDigit
  if d1 = [] then none
  else
    match s.dropWhile Char.isDigit with
    | sep :: r2 =>
      if sep = '.' || sep = ',' then
        let d2 := r2.takeWhile Char.isDigit
        if d2 = [] then some d1 else some (d1 ++ sep :: d2)
      else some d1
    | [] => some d1

/-- `re.search` of the value regex: leftmost match of group 1. -/
def reSearchNumber (s : PyStr) : Option PyStr := s.tails.findSome? matchNumberAt

/-- Model of `float(token.replace(",", "."))` on a matched value token. -/
def pfOfToken (tok : PyStr) : PyFloat :=
  let d1 := tok.takeWhile Char.isDigit
  match tok.dropWhile Char.isDigit with
  | _ :: frac =>
    ⟨Int.ofNat (natOfDigits d1 * 10 ^ frac.length + natOfDigits frac), 10 ^ frac.length⟩
  | [] => ⟨Int.ofNat (natOfDigits d1), 1⟩

/-- Match of `\d+\.\d+` anchored at the start of `s`; returns the matched
text and the remaining input. -/
def matchDecimalAt (s : PyStr) : Option (PyStr × PyStr) :=
  let d1 := s.takeWhile Char.isDigit
  if d1 = [] then none
  else
    match s.dropWhile Char.isDigit with
    | '.' :: r2 =>
      let d2 := r2.takeWhile Char.isDigit
      if d2 = [] then none
      else some (d1 ++ '.' :: d2, r2.dropWhile Char.isDigit)
    | _ => none

/-- Match of `(\d+\.\d+ - \d+\.\d+|\d+\.\d+)` anchored at the start:
the two-sided alternative is preferred, else the single decimal. -/
def matchRefAt (s : PyStr) : Option PyStr :=
  match matchDecimalAt s with
  | none => none
  | some (t1, r1) =>
    match r1 with
    | ' ' :: '-' :: ' ' :: r2 =>
      match matchDecimalAt r2 with
      | some (t2, _) => some (t1 ++ (pys " - ") ++ t2)
      | none => some t1
    | _ => some t1

/-- Embedding of `MedicalDataParser._get_reference`: first line of the
window with a reference-looking match wins; otherwise the empty string. -/
def get_reference (lines : List PyStr) : PyStr :=
  match lines.findSome? (fun line => line.tails.findSome? matchRefAt) with
  | some m => m
  | none => []

/-- Match of `(\d+\.\d+)-(\d+\.\d+)` anchored at the start; returns the
two bounds as floats. -/
def matchStarRangeAt (s : PyStr) : Option (PyFloat × PyFloat) :=
  match matchDecimalAt s with
  | none => none
  | some (t1, r1) =>
    match r1 with
    | '-' :: r2 =>
      match matchDecimalAt r2 with
      | some (t2, _) => some (pfOfToken t1, pfOfToken t2)
      | none => none
    | _ => none

/-- Match of the source's second status pattern, anchored at the start.  The
pattern reads `(\d+\.\d+)-(\d+\.\д+)`: the unknown escape of the
non-ASCII letter `д` is kept literally by Python's `re`, so group 2 is
digits, a dot, then one or more `д` characters — and `float(group(2))`
always raises `ValueError` when this pattern matches. -/
def matchWeirdAt (s : PyStr) : Bool :=
  match matchDecimalAt s with
  | none => false
  | some (_, r1) =>
    match r1 with
    | '-' :: r2 =>
      let d1 := r2.takeWhile Char.isDigit
      if d1 = [] then false
      else
        match r2.dropWhile Char.isDigit with
        | '.' :: r3 => !(r3.takeWhile (fun c => c = 'д')).isEmpty
        | _ => false
    | _ => false

/-- Embedding of `MedicalDataParser._determine_status`.  A line with a `*`
and a parseable range classifies immediately; a line matching the second
pattern raises `ValueError` (caught by the callers, which then continue
their window scan); otherwise the scan continues, defaulting to
`"неизвестно"`. -/
def determine_status : List PyStr → PyFloat → Except PyErr PyStr
  | [], _ => .ok (pys "неизвестно")
  | line :: rest, v =>
    if pyContains line (pys "*") then
      match line.tails.findSome? matchStarRangeAt with
      | some r => .ok (if pfLt v r.1 then pys "понижен" else pys "повышен")
      | none =>
        if line.tails.any matchWeirdAt then .error .valueError
        else determine_status rest v
    else
      if line.tails.any matchWeirdAt then .error .valueError
      else determine_status rest v

/-- Leftmost search for one of a list of literal alternatives (Python `re`
alternation of literals: earliest position wins, then the first
alternative). -/
def altSearch (alts : List PyStr) (s : PyStr) : Option PyStr :=
  s.tails.findSome? (fun t => alts.find? (fun a => a.isPrefixOf t))

/-- The per-key patterns of `MedicalDataParser._get_hormone_unit`. -/
def HORMONE_UNIT_PATTERNS : List (PyStr × List PyStr) :=
  [ (pys "tsh", [pys "мкме/мл", pys "μiu/ml"])
  , (pys "free_t4", [pys "пмоль/л", pys "pmol/l"])
  , (pys "free_t3", [pys "пмоль/л", pys "pmol/l"])
  , (pys "testosterone", [pys "нмоль/л", pys "nmol/l"])
  , (pys "estradiol", [pys "пг/мл", pys "pg/ml"])
  , (pys "progesterone", [pys "нмоль/л", pys "nmol/l"])
  , (pys "cortisol", [pys "нмоль/л", pys "nmol/l"]) ]

/-- The generic unit alternation of `_get_hormone_unit`. -/
def COMMON_HORMONE_UNITS : List PyStr :=
  [ pys "мкме/мл", pys "пмоль/л", pys "нмоль/л", pys "пг/мл"
  , pys "μiu/ml", pys "pmol/l", pys "nmol/l", pys "pg/ml" ]

/-- Embedding of `MedicalDataParser._get_hormone_unit`. -/
def get_hormone_unit (k : PyStr) (lines : List PyStr) : PyStr :=
  match lines.findSome? (fun line =>
    let ll := pyLower line
    match alookup HORMONE_UNIT_PATTERNS k with
    | some alts =>
      match altSearch alts ll with
      | some m => some m
      | none => altSearch COMMON_HORMONE_UNITS ll
    | none => altSearch COMMON_HORMONE_UNITS ll) with
  | some m => m
  | none => []

/-- A pattern of `MedicalDataParser._get_unit`: a literal, or the regex
`< \d+\.\d+` used for the atherogenic index.  (`мл/мин/1,73м\^2` is the
literal with an escaped caret.) -/
inductive UnitPat where
  | lit (s : PyStr)
  | ltDecimal
  deriving DecidableEq, Repr

/-- The per-key patterns of `MedicalDataParser._get_unit`. -/
def UNIT_SEARCH_PATTERNS : List (PyStr × UnitPat) :=
  [ (pys "glucose", .lit (pys "ммоль/л"))
  , (pys "urea", .lit (pys "ммоль/л"))
  , (pys "creatinine", .lit (pys "мкмоль/л"))
  , (pys "bilirubin_total", .lit (pys "мкмоль/л"))
  , (pys "alt", .lit (pys "ед/л"))
  , (pys "ast", .lit (pys "ед/л"))
  , (pys "atherogenic_index", .ltDecimal)
  , (pys "gfr_ckd_epi", .lit (pys "мл/мин/1,73м^2")) ]

/-- Match of `< \d+\.\d+` anchored at the start. -/
def matchLtDecAt (s : PyStr) : Option PyStr :=
  match s with
  | '<' :: ' ' :: r =>
    match matchDecimalAt r with
    | some (t, _) => some ('<' :: ' ' :: t)
    | none => none
  | _ => none

/-- Leftmost search for a `_get_unit` pattern. -/
def searchUnitPat : UnitPat → PyStr → Option PyStr
  | .lit x, s => altSearch [x] s
  | .ltDecimal, s => s.tails.findSome? matchLtDecAt

/-- Embedding of `MedicalDataParser._get_unit`: for each window line in
order, search the pattern registered for this key in the lowered line; keys
without a pattern always yield the empty string. -/
def get_unit (k : PyStr) (lines : List PyStr) : PyStr :=
  match lines.findSome? (fun line =>
    match alookup UNIT_SEARCH_PATTERNS k with
    | some p => searchUnitPat p (pyLower line)
    | none => none) with
  | some m => m
  | none => []

/-- One extracted reading (`value`, `unit`, `reference`, `status`). -/
structure Reading where
  value : PyFloat
  unit : PyStr
  reference : PyStr
  status : PyStr
  deriving DecidableEq, Repr

/-- A results dictionary of the deterministic parser. -/
abbrev RDict := List (PyStr × Reading)

/-- The window `lines[i : i + offset + 1]`. -/
def windowSlice (lines : List PyStr) (i off : Nat) : List PyStr :=
  (lines.drop i).take (off + 1)

/-- Window scan of `parse_hormones` (offsets 1..3): past the end of the
lines ends the scan; a found number records the reading only when the key is
not yet present (then the scan stops); a `ValueError` from the status
computation continues the scan at the next offset. -/
def hormonesWindow (lines : List PyStr) (i : Nat) (k : PyStr) (r : RDict) :
    List Nat → RDict
  | [] => r
  | off :: rest =>
    if lines.length ≤ i + off then r
    else
      match reSearchNumber (pyStrip (lines.getD (i + off) [])) with
      | none => hormonesWindow lines i k r rest
      | some tok =>
        let v := pfOfToken tok
        if (alookup r k).isSome then r
        else
          match determine_status (windowSlice lines i off) v with
          | .error _ => hormonesWindow lines i k r rest
          | .ok st =>
            aset r k ⟨v, get_hormone_unit k (windowSlice lines i off),
                      get_reference (windowSlice lines i off), st⟩

/-- One outer-loop iteration of `parse_hormones`: the first parameter whose
keyword occurs in the lowered, stripped line gets a window scan. -/
def hormonesLine (lines : List PyStr) (i : Nat) (r : RDict) : RDict :=
  let ll := pyStrip (pyLower (lines.getD i []))
  match HORMONES_PARSER_MAP.find? (fun p => p.2.any (fun kw => pyContains ll kw)) with
  | none => r
  | some p => hormonesWindow lines i p.1 r [1, 2, 3]

/-- Embedding of `MedicalDataParser.parse_hormones`. -/
def parse_hormones (text : PyStr) : RDict :=
  let lines := splitLines text
  (List.range lines.length).foldl (fun r i => hormonesLine lines i r) []

/-- Window scan of `parse_blood_biochem`: a found number whose value fails
the plausibility check ends the scan (the `break` sits outside the
validation branch); a plausible value records only when the key is absent
and then ends the scan; a `ValueError` from the status computation continues
at the next offset. -/
def biochemWindow (lines : List PyStr) (i : Nat) (k : PyStr) (r : RDict) :
    List Nat → RDict
  | [] => r
  | off :: rest =>
    if lines.length ≤ i + off then r
    else
      match reSearchNumber (pyStrip (lines.getD (i + off) [])) with
      | none => biochemWindow lines i k r rest
      | some tok =>
        let v := pfOfToken tok
        if validate_value k v then
          if (alookup r k).isSome then r
          else
            match determine_status (windowSlice lines i off) v with
            | .error _ => biochemWindow lines i k r rest
            | .ok st =>
              aset r k ⟨v, get_unit k (windowSlice lines i off),
                        get_reference (windowSlice lines i off), st⟩
        else r

/-- One outer-loop iteration of `parse_blood_biochem`. -/
def biochemLine (lines : List PyStr) (i : Nat) (r : RDict) : RDict :=
  let ll := pyStrip (pyLower (lines.getD i []))
  match BIOCHEM_PARSER_MAP.find? (fun p => p.2.any (fun kw => pyContains ll kw)) with
  | none => r
  | some p => biochemWindow lines i p.1 r [1, 2, 3]

/-- Embedding of `MedicalDataParser.parse_blood_biochem`. -/
def parse_blood_biochem (text : PyStr) : RDict :=
  let lines := splitLines text
  (List.range lines.length).foldl (fun r i => biochemLine lines i r) []

/-- A Python object that `**`-unpacking may be attempted on: the keyword
dict `BLOOD_PARSER`, or the list `BLOOD_LEUKO_PARAMS`. -/
inductive PyColl where
  | dict (entries : List (PyStr × List PyStr))
  | list (items : List PyStr)

/-- Python dict display `\x7b**a, **b\x7d`: `**`-unpacking anything that is
not a mapping raises `TypeError`. -/
def starStarMerge : PyColl → PyColl → Except PyErr (List (PyStr × List PyStr))
  | .dict xs, .dict ys => .ok (aupdate xs ys)
  | _, _ => .error .typeError

/-- Window scan of the percentage branch of `parse_blood_general` (dead code
behind the `TypeError`, kept faithful to the source): values outside 0..100
continue the scan; an in-range value is recorded *without* a
key-already-present guard (overwriting), then the scan stops. -/
def bgWindowPct (lines : List PyStr) (i : Nat) (k : PyStr) (r : RDict) :
    List Nat → RDict
  | [] => r
  | off :: rest =>
    if lines.length ≤ i + off then r
    else
      match reSearchNumber (pyStrip (lines.getD (i + off) [])) with
      | none => bgWindowPct lines i k r rest
      | some tok =>
        let v := pfOfToken tok
        if pfLe 0 v && pfLe v 100 then
          match determine_status (windowSlice lines i off) v with
          | .error _ => bgWindowPct lines i k r rest
          | .ok st => aset r k ⟨v, pys "%", get_reference (windowSlice lines i off), st⟩
        else bgWindowPct lines i k r rest

/-- Window scan of the standard branch of `parse_blood_general` (dead code
behind the `TypeError`): an implausible value continues the scan; a
plausible one is recorded *without* a key-already-present guard, then the
scan stops. -/
def bgWindowStd (lines : List PyStr) (i : Nat) (k : PyStr) (r : RDict) :
    List Nat → RDict
  | [] => r
  | off :: rest =>
    if lines.length ≤ i + off then r
    else
      match reSearchNumber (pyStrip (lines.getD (i + off) [])) with
      | none => bgWindowStd lines i k r rest
      | some tok =>
        let v := pfOfToken tok
        if validate_value k v then
          match determine_status (windowSlice lines i off) v with
          | .error _ => bgWindowStd lines i k r rest
          | .ok st =>
            aset r k ⟨v, get_unit k (windowSlice lines i off),
                      get_reference (windowSlice lines i off), st⟩
        else bgWindowStd lines i k r rest

/-- Body of one `parse_blood_general` outer-loop iteration *after* the
(always-failing) dict merge. -/
def bgLineBody (merged : List (PyStr × List PyStr)) (lines : List PyStr)
    (i : Nat) (r : RDict) : RDict :=
  let ll := pyStrip (pyLower (lines.getD i []))
  match merged.find? (fun p => p.2.any (fun kw => pyContains ll kw)) with
  | none => r
  | some p =>
    if BLOOD_LEUKO_PARAMS.contains p.1 then bgWindowPct lines i p.1 r [1, 2, 3]
    else bgWindowStd lines i p.1 r [1, 2, 3]

/-- One outer-loop iteration of `parse_blood_general`.  The inner `for`
statement evaluates the dict display `\x7b**params_map, **leuko_params_map\x7d`
first, and `leuko_params_map` is the *list* `BLOOD_LEUKO_PARAMS` (from
`constants/parameters.py`), so the iteration raises `TypeError` before
examining the line. -/
def bgLine (lines : List PyStr) (i : Nat) (r : RDict) : Except PyErr RDict :=
  match starStarMerge (.dict BLOOD_PARSER_MAP) (.list BLOOD_LEUKO_PARAMS) with
  | .error e => .error e
  | .ok merged => .ok (bgLineBody merged lines i r)

/-- Embedding of `MedicalDataParser.parse_blood_general`. -/
def parse_blood_general (text : PyStr) : Except PyErr RDict :=
  let lines := splitLines text
  (List.range lines.length).foldlM (fun r i => bgLine lines i r) []

theorem bgFold_errors (lines : List PyStr) (idxs : List Nat) (r : RDict)
    (hne : idxs ≠ []) :
    List.foldlM (fun r i => bgLine lines i r) r idxs =
      Except.error PyErr.typeError := by
  cases idxs with
  | nil => exact absurd rfl hne
  | cons i rest =>
    rw [List.foldlM_cons]
    have h1 : bgLine lines i r = Except.error PyErr.typeError := rfl
    rw [h1]
    rfl

theorem parse_blood_general_raises (text : PyStr) :
    parse_blood_general text = Except.error PyErr.typeError := by
  unfold parse_blood_general
  rcases h : splitLines text with _ | ⟨l, ls⟩
  · exact absurd h (splitLines_ne_nil text)
  · exact bgFold_errors (l :: ls) (List.range (l :: ls).length) []
      (by simp [List.range_eq_nil])

/-- C1: at the failing input — the keyword line `"Гемоглобин"` followed by
the value line `"145"` — `parse_blood_general` raises a `TypeError` instead
of returning the reading `hemoglobin = 145`: its inner loop `**`-unpacks the
list `BLOOD_LEUKO_PARAMS` as part of a dict display, which fails before any
line is examined. -/
theorem C1_hemoglobin_145_raises :
    parse_blood_general (pys "Гемоглобин\n145") = Except.error PyErr.typeError :=
  parse_blood_general_raises (pys "Гемоглобин\n145")

theorem hormonesWindow_preserves (lines : List PyStr) (i : Nat) (k : PyStr)
    (offs : List Nat) :
    ∀ (r : RDict) (k0 : PyStr) (v0 : Reading), alookup r k0 = some v0 →
      alookup (hormonesWindow lines i k r offs) k0 = some v0 := by
  induction offs with
  | nil => intro r k0 v0 h; simpa [hormonesWindow] using h
  | cons off rest ih =>
    intro r k0 v0 h
    by_cases hlen : lines.length ≤ i + off
    · simpa [hormonesWindow, hlen] using h
    · simp only [hormonesWindow, if_neg hlen]
      rcases hnum : reSearchNumber (pyStrip (lines.getD (i + off) [])) with _ | tok
      · exact ih r k0 v0 h
      · by_cases hksome : (alookup r k).isSome = true
        · simpa [hksome] using h
        · have hne : ¬ k = k0 := by
            intro he
            rw [he, h] at hksome
            simp at hksome
          rcases hst : determine_status (windowSlice lines i off) (pfOfToken tok) with e | st
          · simpa [hksome, hst] using ih r k0 v0 h
          · simp [hksome, hst, alookup_aset, hne, h]

theorem biochemWindow_preserves (lines : List PyStr) (i : Nat) (k : PyStr)
    (offs : List Nat) :
    ∀ (r : RDict) (k0 : PyStr) (v0 : Reading), alookup r k0 = some v0 →
      alookup (biochemWindow lines i k r offs) k0 = some v0 := by
  induction offs with
  | nil => intro r k0 v0 h; simpa [biochemWindow] using h
  | cons off rest ih =>
    intro r k0 v0 h
    by_cases hlen : lines.length ≤ i + off
    · simpa [biochemWindow, hlen] using h
    · simp only [biochemWindow, if_neg hlen]
      rcases hnum : reSearchNumber (pyStrip (lines.getD (i + off) [])) with _ | tok
      · exact ih r k0 v0 h
      · simp only []
        by_cases hval : validate_value k (pfOfToken tok) = true
        · by_cases hksome : (alookup r k).isSome = true
          · simpa [hval, hksome] using h
          · have hne : ¬ k = k0 := by
              intro he
              rw [he, h] at hksome
              simp at hksome
            rcases hst : determine_status (windowSlice lines i off) (pfOfToken tok) with e | st
            · simpa [hval, hksome, hst] using ih r k0 v0 h
            · simp [hval, hksome, hst, alookup_aset, hne, h]
        · simpa [hval] using h

theorem hormonesLine_preserves (lines : List PyStr) (i : Nat) (r : RDict)
    (k0 : PyStr) (v0 : Reading) (h : alookup r k0 = some v0) :
    alookup (hormonesLine lines i r) k0 = some v0 := by
  unfold hormonesLine
  show alookup (match HORMONES_PARSER_MAP.find?
        (fun p => p.2.any (fun kw => pyContains (pyStrip (pyLower (lines.getD i []))) kw)) with
      | none => r
      | some p => hormonesWindow lines i p.1 r [1, 2, 3]) k0 = some v0
  rcases hfind : HORMONES_PARSER_MAP.find?
      (fun p => p.2.any (fun kw => pyContains (pyStrip (pyLower (lines.getD i []))) kw)) with _ | p
  · rw [hfind]
    exact h
  · rw [hfind]
    exact hormonesWindow_preserves lines i p.1 [1, 2, 3] r k0 v0 h

theorem biochemLine_preserves (lines : List PyStr) (i : Nat) (r : RDict)
    (k0 : PyStr) (v0 : Reading) (h : alookup r k0 = some v0) :
    alookup (biochemLine lines i r) k0 = some v0 := by
  unfold biochemLine
  show alookup (match BIOCHEM_PARSER_MAP.find?
        (fun p => p.2.any (fun kw => pyContains (pyStrip (pyLower (lines.getD i []))) kw)) with
      | none => r
      | some p => biochemWindow lines i p.1 r [1, 2, 3]) k0 = some v0
  rcases hfind : BIOCHEM_PARSER_MAP.find?
      (fun p => p.2.any (fun kw => pyContains (pyStrip (pyLower (lines.getD i []))) kw)) with _ | p
  · rw [hfind]
    exact h
  · rw [hfind]
    exact biochemWindow_preserves lines i p.1 [1, 2, 3] r k0 v0 h

/-- C5 counterexample: the claim (first occurrence wins in every category
pass) entails that this text — the line `"Гемоглобин"` with value `140`
followed by a second occurrence with `150` — yields a `hemoglobin = 140`
reading from `parse_blood_general`.  Instead the pass raises a `TypeError`
on every input, so no occurrence at all is recorded. -/
theorem C5_first_occurrence_counterexample :
    parse_blood_general (pys "Гемоглобин\n140\nГемоглобин\n150") =
      Except.error PyErr.typeError :=
  parse_blood_general_raises (pys "Гемоглобин\n140\nГемоглобин\n150")

/-- C5 amended: in `parse_hormones` and `parse_blood_biochem` a recorded
reading is never overwritten by a later keyword/value occurrence (their
recording is guarded by a key-not-present check, so any binding present in
the running results survives every further loop iteration), while
`parse_blood_general` raises a `TypeError` on every input before recording
anything (and its recording statements carry no such guard). -/
theorem C5_first_occurrence_wins_amended (lines : List PyStr) (idxs : List Nat)
    (r : RDict) (k : PyStr) (v : Reading) (h : alookup r k = some v) :
    alookup (idxs.foldl (fun acc i => hormonesLine lines i acc) r) k = some v ∧
    alookup (idxs.foldl (fun acc i => biochemLine lines i acc) r) k = some v ∧
    ∀ text, parse_blood_general text = Except.error PyErr.typeError := by
  refine ⟨?_, ?_, parse_blood_general_raises⟩
  · induction idxs generalizing r with
    | nil => simpa using h
    | cons i rest ih =>
      simp only [List.foldl_cons]
      exact ih _ (hormonesLine_preserves lines i r k v h)
  · induction idxs generalizing r with
    | nil => simpa using h
    | cons i rest ih =>
      simp only [List.foldl_cons]
      exact ih _ (biochemLine_preserves lines i r k v h)

/-- A concrete reading used by witnesses. -/
def sampleReading : Reading := ⟨2, pys "ммоль/л", pys "3.3 - 5.5", pys "норма"⟩

/-- Closed witness for `C5_first_occurrence_wins_amended`: a pre-existing
`glucose` binding survives both passes over a text that also contains a
hormone keyword with a value in range. -/
theorem C5_first_occurrence_wins_amended_witness :
    alookup ([0, 1].foldl
        (fun acc i => hormonesLine [pys "ТТГ", pys "2.5"] i acc)
        [(pys "glucose", sampleReading)]) (pys "glucose") = some sampleReading ∧
    alookup ([0, 1].foldl
        (fun acc i => biochemLine [pys "ТТГ", pys "2.5"] i acc)
        [(pys "glucose", sampleReading)]) (pys "glucose") = some sampleReading ∧
    ∀ text, parse_blood_general text = Except.error PyErr.typeError :=
  C5_first_occurrence_wins_amended [pys "ТТГ", pys "2.5"] [0, 1]
    [(pys "glucose", sampleReading)] (pys "glucose") sampleReading rfl

/-! ## PDF text extraction (`OCRProcessor.extract_text_from_pdf`) -/

/-- One page of a PDF document: the embedded text layer that `get_text`
returns, and the text OCR would produce from the rasterized page. -/
structure PdfPage where
  textLayer : PyStr
  ocrText : PyStr
  deriving DecidableEq, Repr

/-- One iteration of the page loop: append the page's text layer to the
accumulated text, then — if the *accumulated* stripped text is still shorter
than 100 characters — rasterize the page and append its OCR text. -/
def pdfStep (text : PyStr) (p : PdfPage) : PyStr :=
  let t := text ++ p.textLayer
  if (pyStrip t).length < 100 then t ++ p.ocrText else t

/-- Embedding of `OCRProcessor.extract_text_from_pdf` over the page list. -/
def extract_text_from_pdf (pages : List PdfPage) : PyStr :=
  pages.foldl pdfStep []

/-- The claim's reading of the OCR fallback (kept separate for comparison):
a page is OCR'd if and only if that page's *own* text layer is below the
100-character floor. -/
def extractPdfClaim (pages : List PdfPage) : PyStr :=
  pages.foldl
    (fun acc p =>
      acc ++ p.textLayer ++
        (if (pyStrip p.textLayer).length < 100 then p.ocrText else []))
    []

/-- Per-page contributions of the actual loop: each page contributes its
text layer, plus its OCR text exactly when the stripped text accumulated so
far (previous layers and previous OCR additions) together with this page's
layer is shorter than 100 characters. -/
def pdfContribs (acc : PyStr) : List PdfPage → List PyStr
  | [] => []
  | p :: ps =>
    let contrib := p.textLayer ++
      (if (pyStrip (acc ++ p.textLayer)).length < 100 then p.ocrText else [])
    contrib :: pdfContribs (acc ++ contrib) ps

theorem pdf_foldl_contribs (pages : List PdfPage) :
    ∀ acc, pages.foldl pdfStep acc = acc ++ (pdfContribs acc pages).flatten := by
  induction pages with
  | nil => intro acc; simp [pdfContribs]
  | cons p ps ih =>
    intro acc
    simp only [List.foldl_cons, pdfContribs]
    by_cases hc : (pyStrip (acc ++ p.textLayer)).length < 100
    · have hstep : pdfStep acc p = acc ++ (p.textLayer ++ p.ocrText) := by
        simp [pdfStep, hc]
      rw [hstep, ih]
      simp [hc, List.append_assoc]
    · have hstep : pdfStep acc p = acc ++ p.textLayer := by
        simp [pdfStep, hc]
      rw [hstep, ih]
      simp [hc, List.append_assoc]

set_option maxRecDepth 4000 in
/-- C4 counterexample: for a two-page document whose first page carries a
120-character text layer and whose second page has an empty text layer, the
claim (per-page OCR decision) demands the second page be OCR'd, but the code
tests the cumulative text (120 ≥ 100 characters) and skips OCR, so the OCR
text `"Y"` never appears in the output. -/
theorem C4_pdf_ocr_counterexample :
    extract_text_from_pdf
        [⟨List.replicate 120 'a', pys "OCR1"⟩, ⟨[], pys "Y"⟩] ≠
      extractPdfClaim
        [⟨List.replicate 120 'a', pys "OCR1"⟩, ⟨[], pys "Y"⟩] := by decide

/-- C4 amended: the per-page results are concatenated in page order, and a
page's OCR text is appended if and only if the stripped output accumulated
so far — all previous pages' layers and OCR additions — plus this page's own
text layer is shorter than the fixed 100-character floor. -/
theorem C4_pdf_ocr_cumulative_amended (pages : List PdfPage) :
    extract_text_from_pdf pages = (pdfContribs [] pages).flatten := by
  simpa using pdf_foldl_contribs pages []

/-! ## Generative extraction adapter (`gpt_parser.py`) -/

/-- A JSON value decoded from the model's response. -/
inductive JVal where
  | str (s : PyStr)
  | num (v : PyFloat)
  | obj (fields : List (PyStr × JVal))
  | null

/-- A decoded JSON object (the dict `json.loads` produces). -/
abbrev JObj := List (PyStr × JVal)

/-- Python truthiness of a JSON value. -/
def jtruthy : JVal → Bool
  | .str s => !s.isEmpty
  | .num v => !(v.num == 0)
  | .obj l => !l.isEmpty
  | .null => false

/-- Outcome of the external model call `client.chat.completions.create`:
either an exception (transport, credential, timeout, ...) or a response
with its message content and optional token usage. -/
inductive CallOutcome where
  | raise (e : PyErr)
  | ok (content : PyStr) (usage : Option (Nat × Nat))

/-- The body of the `try` block of `GPTMedicalParser.parse_analysis`
(`gpt_parser.py` lines 84-111): perform the external call, then decode its
content with `json.loads` (`loads` is the decoder, which may itself raise);
usage logging and cost estimation cannot raise. -/
def parse_analysis_attempt (call : CallOutcome)
    (loads : PyStr → Except PyErr JObj) : Except PyErr JObj :=
  match call with
  | .raise e => .error e
  | .ok content _ => loads content

/-- Embedding of the guarded region of `GPTMedicalParser.parse_analysis`:
the `except Exception` handler turns any exception of the attempt into the
empty dict. -/
def parse_analysis (call : CallOutcome)
    (loads : PyStr → Except PyErr JObj) : Except PyErr JObj :=
  match parse_analysis_attempt call loads with
  | .ok result => .ok result
  | .error _ => .ok []

/-- C10: `parse_analysis` is total over external failures: it always returns
(never propagates an exception of the call or of response decoding), and
both a raised call and a failed decode yield the empty dict — at the
adapter's interface indistinguishable from a successful call that extracted
zero parameters. -/
theorem C10_parse_analysis_total (call : CallOutcome)
    (loads : PyStr → Except PyErr JObj) :
    (∃ j, parse_analysis call loads = .ok j) ∧
    (∀ e, call = .raise e → parse_analysis call loads = .ok []) ∧
    (∀ c u e, call = .ok c u → loads c = .error e →
       parse_analysis call loads = .ok []) := by
  refine ⟨?_, ?_, ?_⟩
  · unfold parse_analysis
    rcases parse_analysis_attempt call loads with e | j
    · exact ⟨[], rfl⟩
    · exact ⟨j, rfl⟩
  · intro e he
    subst he
    rfl
  · intro c u e hc hl
    subst hc
    show (match loads c with
          | Except.ok result => Except.ok result
          | Except.error _ => Except.ok []) = Except.ok ([] : JObj)
    rw [hl]

/-- Closed witness for `C10_parse_analysis_total`: a raised call, a call
whose response fails to decode, and a successful empty decode. -/
theorem C10_parse_analysis_total_witness :
    parse_analysis (.raise .apiError) (fun _ => .ok []) = .ok [] ∧
    parse_analysis (.ok (pys "not a json object") none)
      (fun _ => .error .valueError) = .ok [] ∧
    ∃ j, parse_analysis (.ok (pys "") none) (fun _ => .ok []) = .ok j :=
  ⟨(C10_parse_analysis_total (.raise .apiError) (fun _ => .ok [])).2.1 .apiError rfl,
   (C10_parse_analysis_total (.ok (pys "not a json object") none)
      (fun _ => .error .valueError)).2.2 (pys "not a json object") none .valueError rfl rfl,
   (C10_parse_analysis_total (.ok (pys "") none) (fun _ => .ok [])).1⟩

/-! ## Grouped orchestrator (`GroupedAnalysisParser`, `file_processor.py`) -/

/-- The `_metadata` entry of the grouped results. -/
structure GroupedMeta where
  laboratory : PyStr
  parsing_method : Option PyStr
  deriving DecidableEq, Repr

/-- The grouped results dict: the four category buckets, the transient
`_raw_parameters` pool, and `_metadata`. -/
structure Grouped where
  bg : RDict
  bc : RDict
  horm : RDict
  other : RDict
  raw : RDict
  meta : GroupedMeta
  deriving DecidableEq, Repr

/-- Merge a nonempty pass result into `_raw_parameters` (the source guards
each merge by `if data:`). -/
def addRawIf (g : Grouped) (d : RDict) : Grouped :=
  if d ≠ [] then { g with raw := aupdate g.raw d } else g

theorem addRawIf_meta (g : Grouped) (d : RDict) : (addRawIf g d).meta = g.meta := by
  unfold addRawIf
  split <;> rfl

/-- Embedding of `GroupedAnalysisParser._parse_with_regex`: set the parsing
method to `"regex"`, then run the three deterministic passes, each inside a
`try`/`except` (only `parse_blood_general` can raise), merging nonempty
results into the raw pool. -/
def parse_with_regex (text : PyStr) (g : Grouped) : Grouped :=
  let g1 : Grouped := { g with meta := { g.meta with parsing_method := some (pys "regex") } }
  let g2 :=
    match parse_blood_general text with
    | .error _ => g1
    | .ok d => addRawIf g1 d
  let g3 := addRawIf g2 (parse_blood_biochem text)
  addRawIf g3 (parse_hormones text)

theorem parse_with_regex_meta (text : PyStr) (g : Grouped) :
    (parse_with_regex text g).meta =
      { g.meta with parsing_method := some (pys "regex") } := by
  unfold parse_with_regex
  rw [addRawIf_meta, addRawIf_meta]
  rcases parse_blood_general text with e | d
  · rfl
  · rw [addRawIf_meta]

/-- Outcome of one `parse_analysis` call as seen by the orchestrator:
either an exception (raised before or inside the call and not swallowed
there) or the decoded result object. -/
inductive GptOut where
  | raise (e : PyErr)
  | res (j : JObj)

/-- The categories the generative loop tries, in order. -/
def GPT_CATEGORIES : List PyStr :=
  [pys "blood_general", pys "blood_biochem", pys "hormones"]

/-- The source's `if gpt_result and gpt_result.get("parameters"):`. -/
def gptTruthyParams (j : JObj) : Bool :=
  !j.isEmpty &&
    (match alookup j (pys "parameters") with
     | some v => jtruthy v
     | none => false)

/-- The per-category loop of `_parse_with_gpt`.  `fmt` stands for
`format_gpt_result`, which the orchestrator imports from `gpt_parser` but
which is absent from the source tree; it is kept abstract here (it is the
conversion of the response's `parameters` object into readings and is never
invoked in the empty-parameters scenarios below).  A per-category exception
switches the whole run to the regex path when fallback is enabled, else the
category is skipped. -/
def gptLoop (fallback : Bool) (outcome : PyStr → GptOut) (fmt : JObj → RDict)
    (text : PyStr) (g : Grouped) : List PyStr → RDict → (Grouped ⊕ RDict)
  | [], acc => .inr acc
  | c :: rest, acc =>
    match outcome c with
    | .raise _ =>
      if fallback then .inl (parse_with_regex text g)
      else gptLoop fallback outcome fmt text g rest acc
    | .res j =>
      if gptTruthyParams j then
        gptLoop fallback outcome fmt text g rest (aupdate acc (fmt j))
      else gptLoop fallback outcome fmt text g rest acc

/-- Embedding of `GroupedAnalysisParser._parse_with_gpt`.  `enabled` stands
for `gpt_parser.is_enabled()` and `fallback` for
`gpt_parser.settings.fallback_enabled` — both resolved through the
`ParserSettings` model outside this source tree, modelled from the spec as
administrative booleans. -/
def parse_with_gpt (enabled fallback : Bool) (outcome : PyStr → GptOut)
    (fmt : JObj → RDict) (text : PyStr) (g : Grouped) : Grouped :=
  if !enabled then
    parse_with_regex text
      { g with meta := { g.meta with parsing_method := some (pys "regex (gpt_disabled)") } }
  else
    match gptLoop fallback outcome fmt text g GPT_CATEGORIES [] with
    | .inl fellBack => fellBack
    | .inr all =>
      if all ≠ [] then
        { g with raw := all, meta := { g.meta with parsing_method := some (pys "gpt") } }
      else if fallback then parse_with_regex text g
      else g

/-- One step of `_classify_parameters`: route a pooled parameter into the
bucket of its type, or into `other`. -/
def classifyStep (g : Grouped) (kv : PyStr × Reading) : Grouped :=
  match alookup PARAMETER_TYPE_MAP (pyLower kv.1) with
  | some t =>
    if t = pys "blood_general" then { g with bg := aset g.bg kv.1 kv.2 }
    else if t = pys "blood_biochem" then { g with bc := aset g.bc kv.1 kv.2 }
    else if t = pys "hormones" then { g with horm := aset g.horm kv.1 kv.2 }
    else { g with other := aset g.other kv.1 kv.2 }
  | none => { g with other := aset g.other kv.1 kv.2 }

/-- Embedding of `GroupedAnalysisParser._classify_parameters`: pop the raw
pool and distribute it. -/
def classify_parameters (g : Grouped) : Grouped :=
  let raw := g.raw
  let g0 : Grouped := { g with raw := [] }
  if raw = [] then g0 else raw.foldl classifyStep g0

theorem classifyStep_meta (g : Grouped) (kv : PyStr × Reading) :
    (classifyStep g kv).meta = g.meta := by
  unfold classifyStep
  split
  · split_ifs <;> rfl
  · rfl

theorem classify_parameters_meta (g : Grouped) :
    (classify_parameters g).meta = g.meta := by
  have hfold : ∀ (l : List (PyStr × Reading)) (g0 : Grouped),
      (l.foldl classifyStep g0).meta = g0.meta := by
    intro l
    induction l with
    | nil => intro g0; rfl
    | cons kv rest ih =>
      intro g0
      rw [List.foldl_cons, ih, classifyStep_meta]
  show (if g.raw = [] then ({ g with raw := [] } : Grouped)
        else g.raw.foldl classifyStep { g with raw := [] }).meta = g.meta
  by_cases hr : g.raw = []
  · rw [if_pos hr]
  · rw [if_neg hr]
    exact hfold _ _

/-- Embedding of `GroupedAnalysisParser.parse_all_types`: detect the
laboratory, run the generative strategy when the parser exists
(`hasGpt`, i.e. an API key is configured), else the regex strategy, then
classify the pooled parameters. -/
def parse_all_types (hasGpt enabled fallback : Bool) (outcome : PyStr → GptOut)
    (fmt : JObj → RDict) (text : PyStr) : Grouped :=
  let lab := detect_laboratory text
  let g0 : Grouped := ⟨[], [], [], [], [], ⟨lab, none⟩⟩
  let g1 :=
    if hasGpt then parse_with_gpt enabled fallback outcome fmt text g0
    else parse_with_regex text g0
  classify_parameters g1

/-- C3: when the generative strategy runs (parser present and enabled) and
returns an empty `parameters` object for every category, and fallback is
enabled, the grouped parse completes with final metadata parsing method
`"regex"` — never `"gpt"`. -/
theorem C3_gpt_empty_falls_back_to_regex (outcome : PyStr → GptOut)
    (fmt : JObj → RDict) (text : PyStr)
    (hres : ∀ c ∈ GPT_CATEGORIES, ∃ j, outcome c = .res j ∧
        alookup j (pys "parameters") = some (.obj [])) :
    (parse_all_types true true true outcome fmt text).meta.parsing_method =
      some (pys "regex") := by
  obtain ⟨j1, hj1, hp1⟩ := hres (pys "blood_general") (by decide)
  obtain ⟨j2, hj2, hp2⟩ := hres (pys "blood_biochem") (by decide)
  obtain ⟨j3, hj3, hp3⟩ := hres (pys "hormones") (by decide)
  have ht1 : gptTruthyParams j1 = false := by simp [gptTruthyParams, hp1, jtruthy]
  have ht2 : gptTruthyParams j2 = false := by simp [gptTruthyParams, hp2, jtruthy]
  have ht3 : gptTruthyParams j3 = false := by simp [gptTruthyParams, hp3, jtruthy]
  have hloop : ∀ (g : Grouped),
      gptLoop true outcome fmt text g GPT_CATEGORIES [] = Sum.inr [] := by
    intro g
    simp [GPT_CATEGORIES, gptLoop, hj1, hj2, hj3, ht1, ht2, ht3]
  unfold parse_all_types
  rw [classify_parameters_meta]
  simp only [if_true]
  unfold parse_with_gpt
  rw [hloop]
  simp [parse_with_regex_meta]

/-- Closed witness for `C3_gpt_empty_falls_back_to_regex`: every category
returns the object with an empty `parameters` field. -/
theorem C3_gpt_empty_falls_back_to_regex_witness :
    (parse_all_types true true true
        (fun _ => .res [(pys "parameters", .obj [])]) (fun _ => [])
        (pys "")).meta.parsing_method = some (pys "regex") :=
  C3_gpt_empty_falls_back_to_regex
    (fun _ => .res [(pys "parameters", .obj [])]) (fun _ => []) (pys "")
    (fun _ _ => ⟨[(pys "parameters", .obj [])], rfl, rfl⟩)

end Medical
